import Mathlib

/-!
Verification of the story-flow orchestration state machine
(`src/story_flow_agent/agent.py`, `StoryFlowAgent._run_async_impl`).

The orchestrator is embedded shallowly: shared session state is an
association list from string keys to string values, the external
generation service is an opaque function (`Gen`), and each stage run
threads an accumulator (`RunAcc`) carrying the invocation trace, the
emitted events, the per-invocation event chunks, the shared state and a
failure flag.  The orchestrator `runWorkflow` follows the Python control
flow of `_run_async_impl` line by line; the Loop and Sequential blocks,
whose implementations live in the external `google.adk` library, are
modelled from the spec (sections 4.1-4.3).
-/

namespace StoryFlow

/-- A state entry store: the per-invocation shared session state,
a mapping from string keys to string values
(`ctx.session.state` in the source). -/
abbrev StateMap := List (String × String)

/-- Look a key up in the shared state (`state.get(k)` / `k in state`). -/
def StateMap.get (s : StateMap) (k : String) : Option String :=
  match s with
  | [] => none
  | (k', v) :: rest => if k' = k then some v else StateMap.get rest k

/-- Write a key into the shared state (`state[k] = v`). -/
def StateMap.set (s : StateMap) (k : String) (v : String) : StateMap :=
  match s with
  | [] => [(k, v)]
  | (k', v') :: rest =>
      if k' = k then (k, v) :: rest else (k', v') :: StateMap.set rest k v

/-- An event emitted by a stage: its source agent name and an opaque
payload (the orchestrator relays events, never inspects payloads). -/
structure Event where
  source : String
  payload : String
deriving DecidableEq, Repr

/-- A stage configuration: agent name and declared output key
(the `LlmAgent(name=..., output_key=...)` declarations in the source). -/
structure Stage where
  name : String
  outputKey : String
deriving DecidableEq, Repr

/-- What one successful generation call produces: the events it streams
and, optionally, a final output text to store under the stage's output
key.  `output = none` models a call that completes without producing a
final response, so the output key is not written. -/
structure GenOutput where
  events : List String
  output : Option String
deriving DecidableEq, Repr

/-- Modelled from the spec: the external generation service (section 6),
an opaque function from the stage name and the current shared state to
either a successful `GenOutput` or a failure (`none`), which propagates
and halts the workflow (section 7). -/
abbrev Gen := String → StateMap → Option GenOutput

/-- The running accumulator threaded through the workflow: the ordered
trace of stage invocations, the concatenated event stream, the
per-invocation event chunks (one entry per invocation, in order), the
shared state, and whether a generation failure has occurred. -/
structure RunAcc where
  trace : List String
  events : List Event
  chunks : List (String × List Event)
  state : StateMap
  failed : Bool
deriving DecidableEq, Repr

/-- Modelled from the spec: run one stage (section 4.1,
`run(state) -> lazy sequence of Event`, writing the declared output key
as a side effect; the `LlmAgent.run_async` / `output_key` machinery of
the external `google.adk` library).  A failed generation call writes
nothing and marks the run failed; after a failure nothing further
executes (the exception propagates). -/
def stepStage (gen : Gen) (st : Stage) (acc : RunAcc) : RunAcc :=
  if acc.failed then acc
  else
    match gen st.name acc.state with
    | none =>
        { acc with
          trace := acc.trace ++ [st.name]
          chunks := acc.chunks ++ [(st.name, [])]
          failed := true }
    | some o =>
        let evs := o.events.map (Event.mk st.name)
        { trace := acc.trace ++ [st.name]
          events := acc.events ++ evs
          chunks := acc.chunks ++ [(st.name, evs)]
          state :=
            match o.output with
            | none => acc.state
            | some v => acc.state.set st.outputKey v
          failed := false }

/-- Modelled from the spec: the Sequential Block (section 4.3,
`SequentialAgent` of the external `google.adk` library): run each stage
exactly once, in order. -/
def stepStages (gen : Gen) (sts : List Stage) (acc : RunAcc) : RunAcc :=
  sts.foldl (fun a st => stepStage gen st a) acc

/-- Modelled from the spec: the Loop Block (section 4.2, `LoopAgent` of
the external `google.adk` library): execute the full stage list, in
order, `n` times, unconditionally — no early-exit predicate. -/
def stepLoop (gen : Gen) (sts : List Stage) : Nat → RunAcc → RunAcc
  | 0, acc => acc
  | n + 1, acc => stepLoop gen sts n (stepStages gen sts acc)

/-- The individual stages declared in the source
(`story_generator`, `critic`, `reviser`, `grammar_check`, `tone_check`). -/
def story_generator : Stage := ⟨"StoryGenerator", "current_story"⟩

def critic : Stage := ⟨"Critic", "criticism"⟩

def reviser : Stage := ⟨"Reviser", "current_story"⟩

def grammar_check : Stage := ⟨"GrammarCheck", "grammar_suggestions"⟩

def tone_check : Stage := ⟨"ToneCheck", "tone_check_result"⟩

/-- The loop's sub-agents (`LoopAgent(sub_agents=[critic, reviser])`). -/
def loopStages : List Stage := [critic, reviser]

/-- The sequential block's sub-agents
(`SequentialAgent(sub_agents=[grammar_check, tone_check])`). -/
def postStages : List Stage := [grammar_check, tone_check]

/-- `max_iterations=2` from the `LoopAgent` construction. -/
def maxIterations : Nat := 2

/-- Drop leading whitespace characters from a character list. -/
def stripLeading : List Char → List Char
  | [] => []
  | c :: cs => if c.isWhitespace then stripLeading cs else c :: cs

/-- Python `str.strip()`: remove leading and trailing whitespace. -/
def pyStrip (s : String) : String :=
  ⟨((stripLeading ((stripLeading s.data).reverse)).reverse)⟩

/-- Python `str.lower()` (ASCII letters). -/
def pyLower (s : String) : String :=
  ⟨s.data.map Char.toLower⟩

/-- The guard check after the initial stage
(`"current_story" not in ctx.session.state or not
ctx.session.state["current_story"]`): the key is absent or holds the
empty (falsy) string. -/
def storyEmpty (s : StateMap) : Bool :=
  match s.get "current_story" with
  | none => true
  | some v => v = ""

/-- The tone branch condition
(`ctx.session.state.get("tone_check_result", "").strip().lower() ==
"negative"`). -/
def toneNegative (s : StateMap) : Bool :=
  pyLower (pyStrip ((s.get "tone_check_result").getD "")) = "negative"

/-- How a workflow run ended: ran to completion, aborted at the guard
because no story was generated, or halted by a propagated generation
failure. -/
inductive Outcome
  | completed
  | abortedEmptyStory
  | genFailure
deriving DecidableEq, Repr

/-- A finished run: the accumulated trace/events/chunks/state plus the
outcome. -/
structure RunResult where
  trace : List String
  events : List Event
  chunks : List (String × List Event)
  state : StateMap
  outcome : Outcome
deriving DecidableEq, Repr

/-- Package an accumulator and an outcome into a `RunResult`. -/
def finish (acc : RunAcc) (o : Outcome) : RunResult :=
  ⟨acc.trace, acc.events, acc.chunks, acc.state, o⟩

/-- The empty accumulator a workflow invocation starts from, over the
caller-seeded state `s0`. -/
def initAcc (s0 : StateMap) : RunAcc :=
  ⟨[], [], [], s0, false⟩

/-- The accumulator after Step 1 of `_run_async_impl`: the initial
`story_generator.run_async(ctx)` drain. -/
def afterInit (gen : Gen) (s0 : StateMap) : RunAcc :=
  stepStage gen story_generator (initAcc s0)

/-- The accumulator after Step 2: the `CriticReviserLoop`
(`loop_agent.run_async(ctx)` drain). -/
def afterLoop (gen : Gen) (s0 : StateMap) : RunAcc :=
  stepLoop gen loopStages maxIterations (afterInit gen s0)

/-- The accumulator after Step 3: `PostProcessing`
(`sequential_agent.run_async(ctx)` drain). -/
def afterPost (gen : Gen) (s0 : StateMap) : RunAcc :=
  stepStages gen postStages (afterLoop gen s0)

/-- The orchestrator, translated from
`StoryFlowAgent._run_async_impl`:
Step 1 run the story generator; guard: abort if `current_story` is
missing or empty; Step 2 run the critic-reviser loop; Step 3 run the
post-processing sequence; Step 4 if the normalized tone is
`"negative"`, run the story generator once more; then finish. -/
def runWorkflow (gen : Gen) (s0 : StateMap) : RunResult :=
  let a1 := afterInit gen s0
  if a1.failed then finish a1 .genFailure
  else if storyEmpty a1.state then finish a1 .abortedEmptyStory
  else
    let a2 := afterLoop gen s0
    if a2.failed then finish a2 .genFailure
    else
      let a3 := afterPost gen s0
      if a3.failed then finish a3 .genFailure
      else if toneNegative a3.state then
        let a4 := stepStage gen story_generator a3
        if a4.failed then finish a4 .genFailure
        else finish a4 .completed
      else finish a3 .completed

/-! ### Derived predicates -/

/-- A generation function that always succeeds and always produces a
non-empty final output. -/
def alwaysWritesNonempty (gen : Gen) : Prop :=
  ∀ name s, ∃ o v, gen name s = some o ∧ o.output = some v ∧ v ≠ ""

/-- The event stream is exactly the in-order concatenation of
per-invocation chunks: one chunk per trace entry, each chunk's events
all sourced from that invocation's stage. -/
def chunksConsistent (acc : RunAcc) : Prop :=
  acc.trace = acc.chunks.map Prod.fst ∧
  acc.events = (acc.chunks.map Prod.snd).flatten ∧
  ∀ c ∈ acc.chunks, ∀ e ∈ c.2, e.source = c.1

/-- Two generation functions agree on everything the state can see:
call-by-call they fail together or succeed with the same final output,
while their event payloads may differ arbitrarily. -/
def outputsAgree (g1 g2 : Gen) : Prop :=
  ∀ name s, (g1 name s = none ∧ g2 name s = none) ∨
    ∃ o1 o2, g1 name s = some o1 ∧ g2 name s = some o2 ∧ o1.output = o2.output

/-- Control-relevant equality of accumulators: same trace, same shared
state, same failure flag (events and chunks may differ). -/
def ctrlEq (a b : RunAcc) : Prop :=
  a.trace = b.trace ∧ a.state = b.state ∧ a.failed = b.failed

/-! ### Concrete stub generators for witnesses -/

/-- Deterministic per-stage generation stub output: fixed strings per
stage name, with the tone verdict a parameter. -/
def stubOut (tone : String) (name : String) : GenOutput :=
  if name = "ToneCheck" then ⟨["tone-ev"], some tone⟩
  else if name = "StoryGenerator" then ⟨["story-ev"], some "Once upon a time"⟩
  else if name = "Critic" then ⟨["crit-ev"], some "Needs more conflict."⟩
  else if name = "Reviser" then ⟨["rev-ev"], some "A better story."⟩
  else ⟨["gram-ev"], some "Grammar is good!"⟩

/-- A generation stub that always succeeds with `stubOut`. -/
def stubGen (tone : String) : Gen := fun name _s => some (stubOut tone name)

/-- A generation stub whose story generator produces the empty string. -/
def emptyStoryGen : Gen := fun name _s =>
  if name = "StoryGenerator" then some ⟨["story-ev"], some ""⟩
  else some (stubOut "neutral" name)

/-- A stub whose grammar-check generation call fails. -/
def failGen : Gen := fun name _s =>
  if name = "GrammarCheck" then none
  else some (stubOut "neutral" name)

/-- The same outputs as `stubGen "neutral"` but a different event
stream per call. -/
def stubGenChatty : Gen := fun name _s =>
  some ⟨["alt-ev-1", "alt-ev-2"], (stubOut "neutral" name).output⟩

/-- A stub whose story generator completes without writing any final
output, while every other stage behaves like the neutral stub. -/
def noWriteStoryGen : Gen := fun name _s =>
  if name = "StoryGenerator" then some ⟨["story-ev"], none⟩
  else some (stubOut "neutral" name)

/-! ### Basic lemmas about single steps and failure propagation -/

theorem stepStage_of_failed (gen : Gen) (st : Stage) (acc : RunAcc)
    (h : acc.failed = true) : stepStage gen st acc = acc := by
  simp [stepStage, h]

theorem stepStages_of_failed (gen : Gen) (sts : List Stage) (acc : RunAcc)
    (h : acc.failed = true) : stepStages gen sts acc = acc := by
  induction sts with
  | nil => rfl
  | cons a l ih =>
      show stepStages gen l (stepStage gen a acc) = acc
      rw [stepStage_of_failed gen a acc h, ih]

theorem stepLoop_of_failed (gen : Gen) (sts : List Stage) (n : Nat)
    (acc : RunAcc) (h : acc.failed = true) : stepLoop gen sts n acc = acc := by
  induction n with
  | zero => rfl
  | succ n ih =>
      show stepLoop gen sts n (stepStages gen sts acc) = acc
      rw [stepStages_of_failed gen sts acc h, ih]

theorem failed_of_stepStage (gen : Gen) (st : Stage) (acc : RunAcc)
    (h : (stepStage gen st acc).failed = false) : acc.failed = false := by
  by_contra hc
  rw [stepStage_of_failed gen st acc (by revert hc; cases acc.failed <;> simp)] at h
  revert hc
  rw [h]
  simp

theorem failed_of_stepStages (gen : Gen) (sts : List Stage) (acc : RunAcc)
    (h : (stepStages gen sts acc).failed = false) : acc.failed = false := by
  by_contra hc
  rw [stepStages_of_failed gen sts acc (by revert hc; cases acc.failed <;> simp)] at h
  revert hc
  rw [h]
  simp

theorem failed_of_stepLoop (gen : Gen) (sts : List Stage) (n : Nat) (acc : RunAcc)
    (h : (stepLoop gen sts n acc).failed = false) : acc.failed = false := by
  by_contra hc
  rw [stepLoop_of_failed gen sts n acc (by revert hc; cases acc.failed <;> simp)] at h
  revert hc
  rw [h]
  simp

/-- A successful stage step: the generation call returned an output
record, the trace and event stream are extended, and the state receives
the declared output key (when a final output was produced). -/
theorem stepStage_success (gen : Gen) (st : Stage) (acc : RunAcc)
    (h : (stepStage gen st acc).failed = false) :
    ∃ o, gen st.name acc.state = some o ∧
      stepStage gen st acc =
        { trace := acc.trace ++ [st.name]
          events := acc.events ++ o.events.map (Event.mk st.name)
          chunks := acc.chunks ++ [(st.name, o.events.map (Event.mk st.name))]
          state :=
            match o.output with
            | none => acc.state
            | some v => acc.state.set st.outputKey v
          failed := false } := by
  have hacc : acc.failed = false := failed_of_stepStage gen st acc h
  cases hg : gen st.name acc.state with
  | none =>
      exfalso
      have : (stepStage gen st acc).failed = true := by
        simp [stepStage, hacc, hg]
      rw [this] at h
      exact Bool.true_eq_false.mp h
  | some o =>
      refine ⟨o, rfl, ?_⟩
      simp [stepStage, hacc, hg]

/-- Trace growth of a successful stage step. -/
theorem stepStage_trace (gen : Gen) (st : Stage) (acc : RunAcc)
    (h : (stepStage gen st acc).failed = false) :
    (stepStage gen st acc).trace = acc.trace ++ [st.name] := by
  obtain ⟨o, _, heq⟩ := stepStage_success gen st acc h
  rw [heq]

/-- Running the two-stage list `[a, b]` sequentially is stage `a` then
stage `b`. -/
theorem stepStages_pair (gen : Gen) (a b : Stage) (acc : RunAcc) :
    stepStages gen [a, b] acc = stepStage gen b (stepStage gen a acc) := rfl

/-- Two loop iterations over a stage list: the second full pass starts
from exactly the accumulator (state included) the first pass left. -/
theorem stepLoop_two (gen : Gen) (sts : List Stage) (acc : RunAcc) :
    stepLoop gen sts 2 acc = stepStages gen sts (stepStages gen sts acc) := rfl

/-- Trace growth of a successful pair run. -/
theorem stepStages_pair_trace (gen : Gen) (a b : Stage) (acc : RunAcc)
    (h : (stepStages gen [a, b] acc).failed = false) :
    (stepStages gen [a, b] acc).trace = acc.trace ++ [a.name, b.name] := by
  rw [stepStages_pair] at h ⊢
  have hb : (stepStage gen a acc).failed = false := failed_of_stepStage gen b _ h
  rw [stepStage_trace gen b _ h, stepStage_trace gen a acc hb]
  simp

/-- A stage step on a non-failed accumulator records the invocation in
the trace, whether the generation call succeeds or fails. -/
theorem stepStage_trace_ok (gen : Gen) (st : Stage) (acc : RunAcc)
    (h : acc.failed = false) :
    (stepStage gen st acc).trace = acc.trace ++ [st.name] := by
  cases hg : gen st.name acc.state <;> simp [stepStage, h, hg]

/-- A stage step whose generation call returns a result does not fail. -/
theorem stepStage_not_failed (gen : Gen) (st : Stage) (acc : RunAcc)
    (o : GenOutput) (h : acc.failed = false)
    (hg : gen st.name acc.state = some o) :
    (stepStage gen st acc).failed = false := by
  simp [stepStage, h, hg]

/-- Reading back the key just written. -/
theorem StateMap.get_set_self (s : StateMap) (k v : String) :
    (StateMap.set s k v).get k = some v := by
  induction s with
  | nil => simp [StateMap.set, StateMap.get]
  | cons p rest ih =>
      by_cases hp : p.1 = k
      · simp [StateMap.set, StateMap.get, hp]
      · simp [StateMap.set, StateMap.get, hp, ih]

/-- Writing one key leaves every other key unchanged. -/
theorem StateMap.get_set_ne (s : StateMap) (k k' v : String) (h : k' ≠ k) :
    (StateMap.set s k v).get k' = s.get k' := by
  induction s with
  | nil => simp [StateMap.set, StateMap.get, Ne.symm h]
  | cons p rest ih =>
      by_cases hp : p.1 = k
      · simp [StateMap.set, StateMap.get, hp, Ne.symm h]
      · simp [StateMap.set, StateMap.get, hp, ih]

/-- The full invocation trace once post-processing has completed
successfully: generator, two critic/reviser rounds, grammar, tone. -/
theorem afterPost_trace (gen : Gen) (s0 : StateMap)
    (h : (afterPost gen s0).failed = false) :
    (afterPost gen s0).trace =
      ["StoryGenerator", "Critic", "Reviser", "Critic", "Reviser",
       "GrammarCheck", "ToneCheck"] := by
  have hloop : (afterLoop gen s0).failed = false := by
    exact failed_of_stepStages gen postStages _ h
  have hinit : (afterInit gen s0).failed = false := by
    exact failed_of_stepLoop gen loopStages maxIterations _ hloop
  have hloop' : stepLoop gen loopStages maxIterations (afterInit gen s0) =
      stepStages gen loopStages (stepStages gen loopStages (afterInit gen s0)) := rfl
  have h1 : (stepStages gen loopStages (afterInit gen s0)).failed = false := by
    apply failed_of_stepStages gen loopStages
    rw [← hloop']
    exact hloop
  have htr0 : (afterInit gen s0).trace = ["StoryGenerator"] := by
    have := stepStage_trace gen story_generator (initAcc s0) hinit
    simpa [afterInit, initAcc, story_generator] using this
  have htr1 : (stepStages gen loopStages (afterInit gen s0)).trace =
      ["StoryGenerator", "Critic", "Reviser"] := by
    have := stepStages_pair_trace gen critic reviser (afterInit gen s0) h1
    rw [show stepStages gen loopStages (afterInit gen s0) =
        stepStages gen [critic, reviser] (afterInit gen s0) from rfl, this, htr0]
    rfl
  have htr2 : (afterLoop gen s0).trace =
      ["StoryGenerator", "Critic", "Reviser", "Critic", "Reviser"] := by
    have := stepStages_pair_trace gen critic reviser
      (stepStages gen loopStages (afterInit gen s0))
      (by
        show (stepStages gen loopStages _).failed = false
        rw [← hloop']
        exact hloop)
    unfold afterLoop
    rw [hloop']
    rw [show stepStages gen loopStages (stepStages gen loopStages (afterInit gen s0)) =
        stepStages gen [critic, reviser] (stepStages gen loopStages (afterInit gen s0)) from rfl,
      this, htr1]
    rfl
  have := stepStages_pair_trace gen grammar_check tone_check (afterLoop gen s0)
    (by
      show (stepStages gen [grammar_check, tone_check] _).failed = false
      exact h)
  unfold afterPost
  rw [show stepStages gen postStages (afterLoop gen s0) =
      stepStages gen [grammar_check, tone_check] (afterLoop gen s0) from rfl,
    this, htr2]
  rfl

/-! ### Claims -/

/-- C1: once the run reaches the BRANCH step (initial stage succeeded,
guard passed, loop and post-processing completed), a normalized
`tone_check_result` equal to `"negative"` triggers exactly one
additional story-generator invocation and nothing else afterwards,
while any other normalized value triggers zero additional invocations
and the workflow terminates. -/
theorem branch_tone_gate (gen : Gen) (s0 : StateMap)
    (hinit : (afterInit gen s0).failed = false)
    (hguard : storyEmpty (afterInit gen s0).state = false)
    (hpost : (afterPost gen s0).failed = false) :
    (runWorkflow gen s0).trace =
      (afterPost gen s0).trace ++
        (if toneNegative (afterPost gen s0).state then ["StoryGenerator"]
         else []) := by
  have hloop : (afterLoop gen s0).failed = false :=
    failed_of_stepStages gen postStages _ hpost
  cases htone : toneNegative (afterPost gen s0).state with
  | false =>
      simp [runWorkflow, hinit, hguard, hloop, hpost, htone, finish]
  | true =>
      have htr := stepStage_trace_ok gen story_generator (afterPost gen s0) hpost
      cases h4 : (stepStage gen story_generator (afterPost gen s0)).failed <;>
        simp [runWorkflow, hinit, hguard, hloop, hpost, htone, h4, finish, htr] <;>
        simp [story_generator]

/-- Witness for C1 at a concrete run whose tone verdict is
`" Negative \n"` (whitespace and casing are normalized away). -/
theorem branch_tone_gate_witness :
    ((afterInit (stubGen " Negative \n") []).failed = false ∧
     storyEmpty (afterInit (stubGen " Negative \n") []).state = false ∧
     (afterPost (stubGen " Negative \n") []).failed = false) ∧
    (runWorkflow (stubGen " Negative \n") []).trace =
      (afterPost (stubGen " Negative \n") []).trace ++
        (if toneNegative (afterPost (stubGen " Negative \n") []).state then
          ["StoryGenerator"]
         else []) :=
  ⟨⟨by decide, by decide, by decide⟩,
    branch_tone_gate (stubGen " Negative \n") [] (by decide) (by decide)
      (by decide)⟩

/-- C2: if the initial stage completes but leaves `current_story`
absent or empty, the workflow terminates early without an error
outcome: the trace is just the one generator invocation and every
event ever emitted came from the story generator — nothing from the
loop, the sequential block, or the branch. -/
theorem empty_story_early_termination (gen : Gen) (s0 : StateMap)
    (hinit : (afterInit gen s0).failed = false)
    (hguard : storyEmpty (afterInit gen s0).state = true) :
    runWorkflow gen s0 = finish (afterInit gen s0) .abortedEmptyStory ∧
    (runWorkflow gen s0).trace = ["StoryGenerator"] ∧
    (runWorkflow gen s0).events = (afterInit gen s0).events ∧
    ∀ e ∈ (runWorkflow gen s0).events, e.source = "StoryGenerator" := by
  have hrun : runWorkflow gen s0 = finish (afterInit gen s0) .abortedEmptyStory := by
    simp [runWorkflow, hinit, hguard]
  refine ⟨hrun, ?_, ?_, ?_⟩
  · rw [hrun]
    show (afterInit gen s0).trace = _
    have := stepStage_trace_ok gen story_generator (initAcc s0) (by rfl)
    simpa [afterInit, initAcc, story_generator] using this
  · rw [hrun]
    rfl
  · rw [hrun]
    show ∀ e ∈ (afterInit gen s0).events, e.source = "StoryGenerator"
    obtain ⟨o, -, heq⟩ := stepStage_success gen story_generator (initAcc s0) hinit
    intro e he
    rw [show afterInit gen s0 = stepStage gen story_generator (initAcc s0) from rfl,
      heq] at he
    simp only [initAcc, List.nil_append, List.mem_map] at he
    obtain ⟨p, -, hp⟩ := he
    rw [← hp]
    rfl

/-- Witness for C2: a stub whose story generator writes the empty
string. -/
theorem empty_story_early_termination_witness :
    ((afterInit emptyStoryGen []).failed = false ∧
     storyEmpty (afterInit emptyStoryGen []).state = true) ∧
    (runWorkflow emptyStoryGen []).trace = ["StoryGenerator"] :=
  ⟨⟨by decide, by decide⟩,
    (empty_story_early_termination emptyStoryGen [] (by decide)
      (by decide)).2.1⟩

/-- C3: whenever the run passes the GUARD check and the loop completes,
the Loop Block executes its two child stages exactly two full
iterations, unconditionally, in strict alternating order (critic,
reviser, critic, reviser), and the second iteration starts from exactly
the accumulator (shared state included) the first iteration left. -/
theorem loop_two_full_iterations (gen : Gen) (s0 : StateMap)
    (hinit : (afterInit gen s0).failed = false)
    (hguard : storyEmpty (afterInit gen s0).state = false)
    (hloop : (afterLoop gen s0).failed = false) :
    (afterLoop gen s0).trace =
      (afterInit gen s0).trace ++ ["Critic", "Reviser", "Critic", "Reviser"] ∧
    afterLoop gen s0 =
      stepStages gen loopStages (stepStages gen loopStages (afterInit gen s0)) := by
  refine ⟨?_, rfl⟩
  have hpass1 : (stepStages gen loopStages (afterInit gen s0)).failed = false := by
    apply failed_of_stepStages gen loopStages
    exact hloop
  have h1 := stepStages_pair_trace gen critic reviser (afterInit gen s0) hpass1
  have h2 := stepStages_pair_trace gen critic reviser
    (stepStages gen loopStages (afterInit gen s0)) hloop
  show (stepStages gen loopStages (stepStages gen loopStages (afterInit gen s0))).trace = _
  rw [show stepStages gen loopStages (stepStages gen loopStages (afterInit gen s0)) =
      stepStages gen [critic, reviser] (stepStages gen loopStages (afterInit gen s0)) from rfl,
    h2,
    show stepStages gen loopStages (afterInit gen s0) =
      stepStages gen [critic, reviser] (afterInit gen s0) from rfl,
    h1]
  simp [critic, reviser]

/-- Witness for C3 at a concrete total stub. -/
theorem loop_two_full_iterations_witness :
    ((afterInit (stubGen "neutral") []).failed = false ∧
     storyEmpty (afterInit (stubGen "neutral") []).state = false ∧
     (afterLoop (stubGen "neutral") []).failed = false) ∧
    (afterLoop (stubGen "neutral") []).trace =
      (afterInit (stubGen "neutral") []).trace ++
        ["Critic", "Reviser", "Critic", "Reviser"] :=
  ⟨⟨by decide, by decide, by decide⟩,
    (loop_two_full_iterations (stubGen "neutral") [] (by decide) (by decide)
      (by decide)).1⟩

/-- C4: when the branch fires and the regeneration call succeeds, the
workflow completes immediately after the extra story-generator run: the
full trace is the seven pipeline invocations plus one final
`StoryGenerator`, so the regenerated story is never guard-checked,
looped, grammar-checked or tone-checked again. -/
theorem regeneration_single_shot (gen : Gen) (s0 : StateMap)
    (hinit : (afterInit gen s0).failed = false)
    (hguard : storyEmpty (afterInit gen s0).state = false)
    (hpost : (afterPost gen s0).failed = false)
    (htone : toneNegative (afterPost gen s0).state = true)
    (hregen : (stepStage gen story_generator (afterPost gen s0)).failed = false) :
    (runWorkflow gen s0).outcome = .completed ∧
    (runWorkflow gen s0).trace =
      ["StoryGenerator", "Critic", "Reviser", "Critic", "Reviser",
       "GrammarCheck", "ToneCheck", "StoryGenerator"] ∧
    ((runWorkflow gen s0).trace).count "ToneCheck" = 1 ∧
    ((runWorkflow gen s0).trace).count "GrammarCheck" = 1 ∧
    ((runWorkflow gen s0).trace).count "Critic" = 2 ∧
    ((runWorkflow gen s0).trace).count "Reviser" = 2 ∧
    ((runWorkflow gen s0).trace).getLast? = some "StoryGenerator" := by
  have hloop : (afterLoop gen s0).failed = false :=
    failed_of_stepStages gen postStages _ hpost
  have htr := stepStage_trace_ok gen story_generator (afterPost gen s0) hpost
  have hfull := afterPost_trace gen s0 hpost
  have hrun : runWorkflow gen s0 =
      finish (stepStage gen story_generator (afterPost gen s0)) .completed := by
    simp [runWorkflow, hinit, hguard, hloop, hpost, htone, hregen]
  have htrace : (runWorkflow gen s0).trace =
      ["StoryGenerator", "Critic", "Reviser", "Critic", "Reviser",
       "GrammarCheck", "ToneCheck", "StoryGenerator"] := by
    rw [hrun]
    show (stepStage gen story_generator (afterPost gen s0)).trace = _
    rw [htr, hfull]
    rfl
  refine ⟨by rw [hrun]; rfl, htrace, ?_, ?_, ?_, ?_, ?_⟩ <;> rw [htrace] <;> rfl

/-- Witness for C4 at a concrete stub whose tone verdict is
`"negative"`. -/
theorem regeneration_single_shot_witness :
    ((afterInit (stubGen "negative") []).failed = false ∧
     storyEmpty (afterInit (stubGen "negative") []).state = false ∧
     (afterPost (stubGen "negative") []).failed = false ∧
     toneNegative (afterPost (stubGen "negative") []).state = true ∧
     (stepStage (stubGen "negative") story_generator
        (afterPost (stubGen "negative") [])).failed = false) ∧
    (runWorkflow (stubGen "negative") []).trace =
      ["StoryGenerator", "Critic", "Reviser", "Critic", "Reviser",
       "GrammarCheck", "ToneCheck", "StoryGenerator"] :=
  ⟨⟨by decide, by decide, by decide, by decide, by decide⟩,
    (regeneration_single_shot (stubGen "negative") [] (by decide) (by decide)
      (by decide) (by decide) (by decide)).2.1⟩

/-! ### Total generation stubs: failure-freedom and state shape -/

theorem stepStage_total_ok (gen : Gen) (h : alwaysWritesNonempty gen)
    (st : Stage) (acc : RunAcc) (ha : acc.failed = false) :
    (stepStage gen st acc).failed = false := by
  obtain ⟨o, v, hg, -, -⟩ := h st.name acc.state
  exact stepStage_not_failed gen st acc o ha hg

theorem stepStages_total_ok (gen : Gen) (h : alwaysWritesNonempty gen)
    (sts : List Stage) (acc : RunAcc) (ha : acc.failed = false) :
    (stepStages gen sts acc).failed = false := by
  induction sts generalizing acc with
  | nil => exact ha
  | cons a l ih =>
      exact ih (stepStage gen a acc) (stepStage_total_ok gen h a acc ha)

theorem stepLoop_total_ok (gen : Gen) (h : alwaysWritesNonempty gen)
    (sts : List Stage) (n : Nat) (acc : RunAcc) (ha : acc.failed = false) :
    (stepLoop gen sts n acc).failed = false := by
  induction n generalizing acc with
  | zero => exact ha
  | succ n ih =>
      exact ih (stepStages gen sts acc) (stepStages_total_ok gen h sts acc ha)

/-- The state after a successful stage step that produced a final
output: the declared output key is written, nothing else changes. -/
theorem stepStage_state_write (gen : Gen) (st : Stage) (acc : RunAcc)
    (o : GenOutput) (v : String) (ha : acc.failed = false)
    (hg : gen st.name acc.state = some o) (ho : o.output = some v) :
    (stepStage gen st acc).state = acc.state.set st.outputKey v := by
  simp [stepStage, ha, hg, ho]

theorem stubOut_output (tone name : String) (h : tone ≠ "") :
    ∃ v, (stubOut tone name).output = some v ∧ v ≠ "" := by
  unfold stubOut
  split
  · exact ⟨tone, rfl, h⟩
  split
  · exact ⟨_, rfl, by decide⟩
  split
  · exact ⟨_, rfl, by decide⟩
  split
  · exact ⟨_, rfl, by decide⟩
  · exact ⟨_, rfl, by decide⟩

/-- C5: with a deterministic stub that always succeeds with non-empty
output, a run whose tone verdict is `"neutral"` performs exactly 7
stage invocations, and a run whose tone verdict is `"negative"`
performs exactly 8 (the one extra story-generator call). -/
theorem total_invocation_count (gen1 gen2 : Gen) (s1 s2 : StateMap)
    (h1 : alwaysWritesNonempty gen1)
    (h1t : ∀ s o, gen1 "ToneCheck" s = some o → o.output = some "neutral")
    (h2 : alwaysWritesNonempty gen2)
    (h2t : ∀ s o, gen2 "ToneCheck" s = some o → o.output = some "negative") :
    (runWorkflow gen1 s1).trace.length = 7 ∧
    (runWorkflow gen2 s2).trace.length = 8 := by
  constructor
  · -- neutral tone: seven invocations, no regeneration
    have hinit : (afterInit gen1 s1).failed = false :=
      stepStage_total_ok gen1 h1 story_generator (initAcc s1) rfl
    obtain ⟨o, v, hg, ho, hv⟩ := h1 story_generator.name (initAcc s1).state
    have hstate := stepStage_state_write gen1 story_generator (initAcc s1) o v
      rfl hg ho
    have hguard : storyEmpty (afterInit gen1 s1).state = false := by
      show storyEmpty (stepStage gen1 story_generator (initAcc s1)).state = false
      rw [hstate]
      unfold storyEmpty
      rw [show story_generator.outputKey = "current_story" from rfl,
        StateMap.get_set_self]
      simp [hv]
    have hloop : (afterLoop gen1 s1).failed = false :=
      stepLoop_total_ok gen1 h1 loopStages maxIterations _ hinit
    have hmid : (stepStage gen1 grammar_check (afterLoop gen1 s1)).failed = false :=
      stepStage_total_ok gen1 h1 grammar_check _ hloop
    have hpost : (afterPost gen1 s1).failed = false :=
      stepStage_total_ok gen1 h1 tone_check _ hmid
    obtain ⟨ot, vt, hgt, -, -⟩ :=
      h1 tone_check.name (stepStage gen1 grammar_check (afterLoop gen1 s1)).state
    have hot : ot.output = some "neutral" := h1t _ ot hgt
    have hpstate : (afterPost gen1 s1).state =
        (stepStage gen1 grammar_check (afterLoop gen1 s1)).state.set
          "tone_check_result" "neutral" := by
      show (stepStage gen1 tone_check _).state = _
      exact stepStage_state_write gen1 tone_check _ ot "neutral" hmid hgt hot
    have htone : toneNegative (afterPost gen1 s1).state = false := by
      unfold toneNegative
      rw [hpstate, StateMap.get_set_self]
      decide
    have hrun : runWorkflow gen1 s1 = finish (afterPost gen1 s1) .completed := by
      simp [runWorkflow, hinit, hguard, hloop, hpost, htone]
    rw [hrun]
    show (afterPost gen1 s1).trace.length = 7
    rw [afterPost_trace gen1 s1 hpost]
    rfl
  · -- negative tone: eight invocations, one regeneration
    have hinit : (afterInit gen2 s2).failed = false :=
      stepStage_total_ok gen2 h2 story_generator (initAcc s2) rfl
    obtain ⟨o, v, hg, ho, hv⟩ := h2 story_generator.name (initAcc s2).state
    have hstate := stepStage_state_write gen2 story_generator (initAcc s2) o v
      rfl hg ho
    have hguard : storyEmpty (afterInit gen2 s2).state = false := by
      show storyEmpty (stepStage gen2 story_generator (initAcc s2)).state = false
      rw [hstate]
      unfold storyEmpty
      rw [show story_generator.outputKey = "current_story" from rfl,
        StateMap.get_set_self]
      simp [hv]
    have hloop : (afterLoop gen2 s2).failed = false :=
      stepLoop_total_ok gen2 h2 loopStages maxIterations _ hinit
    have hmid : (stepStage gen2 grammar_check (afterLoop gen2 s2)).failed = false :=
      stepStage_total_ok gen2 h2 grammar_check _ hloop
    have hpost : (afterPost gen2 s2).failed = false :=
      stepStage_total_ok gen2 h2 tone_check _ hmid
    obtain ⟨ot, vt, hgt, -, -⟩ :=
      h2 tone_check.name (stepStage gen2 grammar_check (afterLoop gen2 s2)).state
    have hot : ot.output = some "negative" := h2t _ ot hgt
    have hpstate : (afterPost gen2 s2).state =
        (stepStage gen2 grammar_check (afterLoop gen2 s2)).state.set
          "tone_check_result" "negative" := by
      show (stepStage gen2 tone_check _).state = _
      exact stepStage_state_write gen2 tone_check _ ot "negative" hmid hgt hot
    have htone : toneNegative (afterPost gen2 s2).state = true := by
      unfold toneNegative
      rw [hpstate, StateMap.get_set_self]
      decide
    have hregen : (stepStage gen2 story_generator (afterPost gen2 s2)).failed = false :=
      stepStage_total_ok gen2 h2 story_generator _ hpost
    have hrun : runWorkflow gen2 s2 =
        finish (stepStage gen2 story_generator (afterPost gen2 s2)) .completed := by
      simp [runWorkflow, hinit, hguard, hloop, hpost, htone, hregen]
    rw [hrun]
    show (stepStage gen2 story_generator (afterPost gen2 s2)).trace.length = 8
    rw [stepStage_trace_ok gen2 story_generator _ hpost, afterPost_trace gen2 s2 hpost]
    rfl

/-- Witness for C5 at the concrete deterministic stubs. -/
theorem total_invocation_count_witness :
    (runWorkflow (stubGen "neutral") [("topic", "a lighthouse keeper")]).trace.length = 7 ∧
    (runWorkflow (stubGen "negative") [("topic", "a lighthouse keeper")]).trace.length = 8 := by
  have h1 : alwaysWritesNonempty (stubGen "neutral") := by
    intro name s
    obtain ⟨v, hv, hne⟩ := stubOut_output "neutral" name (by decide)
    exact ⟨stubOut "neutral" name, v, rfl, hv, hne⟩
  have h2 : alwaysWritesNonempty (stubGen "negative") := by
    intro name s
    obtain ⟨v, hv, hne⟩ := stubOut_output "negative" name (by decide)
    exact ⟨stubOut "negative" name, v, rfl, hv, hne⟩
  have h1t : ∀ s o, stubGen "neutral" "ToneCheck" s = some o →
      o.output = some "neutral" := by
    intro s o h
    have h' : stubOut "neutral" "ToneCheck" = o := Option.some.inj h
    rw [← h']
    rfl
  have h2t : ∀ s o, stubGen "negative" "ToneCheck" s = some o →
      o.output = some "negative" := by
    intro s o h
    have h' : stubOut "negative" "ToneCheck" = o := Option.some.inj h
    rw [← h']
    rfl
  exact total_invocation_count (stubGen "neutral") (stubGen "negative")
    [("topic", "a lighthouse keeper")] [("topic", "a lighthouse keeper")]
    h1 h1t h2 h2t

/-! ### Event stream structure -/

theorem stepStage_chunks (gen : Gen) (st : Stage) (acc : RunAcc)
    (h : chunksConsistent acc) : chunksConsistent (stepStage gen st acc) := by
  obtain ⟨ht, he, hs⟩ := h
  cases ha : acc.failed with
  | true => rw [stepStage_of_failed gen st acc ha]; exact ⟨ht, he, hs⟩
  | false =>
      cases hg : gen st.name acc.state with
      | none =>
          have hstep : stepStage gen st acc =
              { acc with
                trace := acc.trace ++ [st.name]
                chunks := acc.chunks ++ [(st.name, [])]
                failed := true } := by
            simp [stepStage, ha, hg]
          rw [hstep]
          refine ⟨?_, ?_, ?_⟩
          · show acc.trace ++ [st.name] =
              List.map Prod.fst (acc.chunks ++ [(st.name, [])])
            rw [List.map_append, ht]
            rfl
          · show acc.events =
              (List.map Prod.snd (acc.chunks ++ [(st.name, [])])).flatten
            rw [List.map_append, List.flatten_append, he]
            simp
          · intro c hc e hec
            rw [show ({ acc with
                trace := acc.trace ++ [st.name]
                chunks := acc.chunks ++ [(st.name, [])]
                failed := true } : RunAcc).chunks =
                acc.chunks ++ [(st.name, [])] from rfl, List.mem_append] at hc
            rcases hc with hc | hc
            · exact hs c hc e hec
            · rw [List.mem_singleton] at hc
              rw [hc] at hec
              exact absurd hec (by simp)
      | some o =>
          have hstep : stepStage gen st acc =
              { trace := acc.trace ++ [st.name]
                events := acc.events ++ o.events.map (Event.mk st.name)
                chunks := acc.chunks ++
                  [(st.name, o.events.map (Event.mk st.name))]
                state :=
                  match o.output with
                  | none => acc.state
                  | some v => acc.state.set st.outputKey v
                failed := false } := by
            simp [stepStage, ha, hg]
          rw [hstep]
          refine ⟨?_, ?_, ?_⟩
          · show acc.trace ++ [st.name] = List.map Prod.fst
              (acc.chunks ++ [(st.name, o.events.map (Event.mk st.name))])
            rw [List.map_append, ht]
            rfl
          · show acc.events ++ o.events.map (Event.mk st.name) =
              (List.map Prod.snd
                (acc.chunks ++
                  [(st.name, o.events.map (Event.mk st.name))])).flatten
            rw [List.map_append, List.flatten_append, he]
            simp
          · intro c hc e hec
            rw [show (⟨acc.trace ++ [st.name],
                acc.events ++ o.events.map (Event.mk st.name),
                acc.chunks ++ [(st.name, o.events.map (Event.mk st.name))],
                match o.output with
                | none => acc.state
                | some v => acc.state.set st.outputKey v,
                false⟩ : RunAcc).chunks =
                acc.chunks ++ [(st.name, o.events.map (Event.mk st.name))]
                from rfl, List.mem_append] at hc
            rcases hc with hc | hc
            · exact hs c hc e hec
            · rw [List.mem_singleton] at hc
              rw [hc] at hec ⊢
              simp only [List.mem_map] at hec
              obtain ⟨p, -, hp⟩ := hec
              rw [← hp]

theorem stepStages_chunks (gen : Gen) (sts : List Stage) (acc : RunAcc)
    (h : chunksConsistent acc) : chunksConsistent (stepStages gen sts acc) := by
  induction sts generalizing acc with
  | nil => exact h
  | cons a l ih => exact ih (stepStage gen a acc) (stepStage_chunks gen a acc h)

theorem stepLoop_chunks (gen : Gen) (sts : List Stage) (n : Nat) (acc : RunAcc)
    (h : chunksConsistent acc) : chunksConsistent (stepLoop gen sts n acc) := by
  induction n generalizing acc with
  | zero => exact h
  | succ n ih => exact ih (stepStages gen sts acc) (stepStages_chunks gen sts acc h)

/-- C6: for every run, the event sequence delivered to the caller is
the concatenation, in stage-execution order, of one event block per
stage invocation, each block sourced entirely from its own stage — the
orchestrator fully drains each stage before advancing (no
interleaving). -/
theorem event_stream_in_stage_order (gen : Gen) (s0 : StateMap) :
    (runWorkflow gen s0).trace =
      (runWorkflow gen s0).chunks.map Prod.fst ∧
    (runWorkflow gen s0).events =
      ((runWorkflow gen s0).chunks.map Prod.snd).flatten ∧
    ∀ c ∈ (runWorkflow gen s0).chunks, ∀ e ∈ c.2, e.source = c.1 := by
  have h0 : chunksConsistent (initAcc s0) := by
    refine ⟨rfl, rfl, ?_⟩
    intro c hc
    simp [initAcc] at hc
  have h1 : chunksConsistent (afterInit gen s0) :=
    stepStage_chunks gen story_generator _ h0
  have h2 : chunksConsistent (afterLoop gen s0) :=
    stepLoop_chunks gen loopStages maxIterations _ h1
  have h3 : chunksConsistent (afterPost gen s0) :=
    stepStages_chunks gen postStages _ h2
  have h4 : chunksConsistent (stepStage gen story_generator (afterPost gen s0)) :=
    stepStage_chunks gen story_generator _ h3
  have hfin : ∃ acc oc, runWorkflow gen s0 = finish acc oc ∧ chunksConsistent acc := by
    by_cases hb1 : (afterInit gen s0).failed = true
    · exact ⟨afterInit gen s0, .genFailure, by simp [runWorkflow, hb1], h1⟩
    by_cases hb2 : storyEmpty (afterInit gen s0).state = true
    · exact ⟨afterInit gen s0, .abortedEmptyStory,
        by simp [runWorkflow, hb1, hb2], h1⟩
    by_cases hb3 : (afterLoop gen s0).failed = true
    · exact ⟨afterLoop gen s0, .genFailure, by simp [runWorkflow, hb1, hb2, hb3], h2⟩
    by_cases hb4 : (afterPost gen s0).failed = true
    · exact ⟨afterPost gen s0, .genFailure,
        by simp [runWorkflow, hb1, hb2, hb3, hb4], h3⟩
    by_cases hb5 : toneNegative (afterPost gen s0).state = true
    · by_cases hb6 : (stepStage gen story_generator (afterPost gen s0)).failed = true
      · exact ⟨_, .genFailure,
          by simp [runWorkflow, hb1, hb2, hb3, hb4, hb5, hb6], h4⟩
      · exact ⟨_, .completed,
          by simp [runWorkflow, hb1, hb2, hb3, hb4, hb5, hb6], h4⟩
    · exact ⟨afterPost gen s0, .completed,
        by simp [runWorkflow, hb1, hb2, hb3, hb4, hb5], h3⟩
  obtain ⟨acc, oc, heq, hcc⟩ := hfin
  rw [heq]
  exact hcc

/-- C7: a failed generation call marks the run failed without touching
the shared state or the already-emitted events (no rollback, no
compensation), every subsequent stage is a no-op (the workflow halts
where the failure occurred), and at the orchestrator level a failure
during post-processing ends the run right there with the `genFailure`
outcome, keeping the partial trace, events and state. -/
theorem generation_failure_halts (gen : Gen) (st : Stage) (acc : RunAcc)
    (hacc : acc.failed = false)
    (hfail : gen st.name acc.state = none) :
    ((stepStage gen st acc).failed = true ∧
     (stepStage gen st acc).state = acc.state ∧
     (stepStage gen st acc).events = acc.events) ∧
    (∀ st2, stepStage gen st2 (stepStage gen st acc) = stepStage gen st acc) ∧
    (∀ gen' s0, (afterInit gen' s0).failed = false →
      storyEmpty (afterInit gen' s0).state = false →
      (afterLoop gen' s0).failed = false →
      (afterPost gen' s0).failed = true →
      runWorkflow gen' s0 = finish (afterPost gen' s0) .genFailure) := by
  have hf : (stepStage gen st acc).failed = true := by
    simp [stepStage, hacc, hfail]
  refine ⟨⟨hf, ?_, ?_⟩, ?_, ?_⟩
  · simp [stepStage, hacc, hfail]
  · simp [stepStage, hacc, hfail]
  · intro st2
    exact stepStage_of_failed gen st2 _ hf
  · intro gen' s0 hinit hguard hloop hpost
    simp [runWorkflow, hinit, hguard, hloop, hpost]

/-- Witness for C7: a stub failing at the grammar check. -/
theorem generation_failure_halts_witness :
    ((afterLoop failGen []).failed = false ∧
     failGen grammar_check.name (afterLoop failGen []).state = none) ∧
    (stepStage failGen grammar_check (afterLoop failGen [])).state =
      (afterLoop failGen []).state ∧
    runWorkflow failGen [] = finish (afterPost failGen []) .genFailure := by
  have h := generation_failure_halts failGen grammar_check (afterLoop failGen [])
    (by decide) (by decide)
  exact ⟨⟨by decide, by decide⟩, h.1.2.1,
    h.2.2 failGen [] (by decide) (by decide) (by decide) (by decide)⟩

/-! ### Payload-independence of control decisions -/

theorem stepStage_ctrlEq (g1 g2 : Gen) (h : outputsAgree g1 g2) (st : Stage)
    (a b : RunAcc) (hab : ctrlEq a b) :
    ctrlEq (stepStage g1 st a) (stepStage g2 st b) := by
  obtain ⟨htr, hst, hf⟩ := hab
  cases ha : a.failed with
  | true =>
      rw [stepStage_of_failed g1 st a ha,
        stepStage_of_failed g2 st b (by rw [← hf]; exact ha)]
      exact ⟨htr, hst, hf⟩
  | false =>
      have hb : b.failed = false := by rw [← hf]; exact ha
      rcases h st.name a.state with ⟨h1, h2⟩ | ⟨o1, o2, h1, h2, ho⟩
      · have h1' : g1 st.name b.state = none := by rw [← hst]; exact h1
        have h2' : g2 st.name b.state = none := by rw [← hst]; exact h2
        refine ⟨?_, ?_, ?_⟩ <;> simp [stepStage, ha, hb, h1, h1', h2', htr, hst]
      · have h1' : g1 st.name b.state = some o1 := by rw [← hst]; exact h1
        have h2' : g2 st.name b.state = some o2 := by rw [← hst]; exact h2
        cases hoo : o1.output with
        | none =>
            have hoo2 : o2.output = none := by rw [← ho]; exact hoo
            refine ⟨?_, ?_, ?_⟩ <;>
              simp [stepStage, ha, hb, h1, h1', h2', hoo, hoo2, htr, hst]
        | some v =>
            have hoo2 : o2.output = some v := by rw [← ho]; exact hoo
            refine ⟨?_, ?_, ?_⟩ <;>
              simp [stepStage, ha, hb, h1, h1', h2', hoo, hoo2, htr, hst]

theorem stepStages_ctrlEq (g1 g2 : Gen) (h : outputsAgree g1 g2)
    (sts : List Stage) (a b : RunAcc) (hab : ctrlEq a b) :
    ctrlEq (stepStages g1 sts a) (stepStages g2 sts b) := by
  induction sts generalizing a b with
  | nil => exact hab
  | cons x l ih => exact ih _ _ (stepStage_ctrlEq g1 g2 h x a b hab)

theorem stepLoop_ctrlEq (g1 g2 : Gen) (h : outputsAgree g1 g2)
    (sts : List Stage) (n : Nat) (a b : RunAcc) (hab : ctrlEq a b) :
    ctrlEq (stepLoop g1 sts n a) (stepLoop g2 sts n b) := by
  induction n generalizing a b with
  | zero => exact hab
  | succ n ih => exact ih _ _ (stepStages_ctrlEq g1 g2 h sts a b hab)

/-- C8: two runs whose generation calls leave identical shared-state
writes but emit different event payloads make identical control
decisions: same trace of executed stages, same final state, same
outcome.  Branching depends only on state values, never on event
contents. -/
theorem control_independent_of_payloads (g1 g2 : Gen) (s0 : StateMap)
    (h : outputsAgree g1 g2) :
    (runWorkflow g1 s0).trace = (runWorkflow g2 s0).trace ∧
    (runWorkflow g1 s0).state = (runWorkflow g2 s0).state ∧
    (runWorkflow g1 s0).outcome = (runWorkflow g2 s0).outcome := by
  have e1 : ctrlEq (afterInit g1 s0) (afterInit g2 s0) :=
    stepStage_ctrlEq g1 g2 h story_generator _ _ ⟨rfl, rfl, rfl⟩
  have e2 : ctrlEq (afterLoop g1 s0) (afterLoop g2 s0) :=
    stepLoop_ctrlEq g1 g2 h loopStages maxIterations _ _ e1
  have e3 : ctrlEq (afterPost g1 s0) (afterPost g2 s0) :=
    stepStages_ctrlEq g1 g2 h postStages _ _ e2
  have e4 : ctrlEq (stepStage g1 story_generator (afterPost g1 s0))
      (stepStage g2 story_generator (afterPost g2 s0)) :=
    stepStage_ctrlEq g1 g2 h story_generator _ _ e3
  by_cases hb1 : (afterInit g1 s0).failed = true
  · have hb1' : (afterInit g2 s0).failed = true := by rw [← e1.2.2]; exact hb1
    have r1 : runWorkflow g1 s0 = finish (afterInit g1 s0) .genFailure := by
      simp [runWorkflow, hb1]
    have r2 : runWorkflow g2 s0 = finish (afterInit g2 s0) .genFailure := by
      simp [runWorkflow, hb1']
    rw [r1, r2]
    exact ⟨e1.1, e1.2.1, rfl⟩
  have hb1' : ¬(afterInit g2 s0).failed = true := by rw [← e1.2.2]; exact hb1
  by_cases hb2 : storyEmpty (afterInit g1 s0).state = true
  · have hb2' : storyEmpty (afterInit g2 s0).state = true := by
      rw [← e1.2.1]; exact hb2
    have r1 : runWorkflow g1 s0 = finish (afterInit g1 s0) .abortedEmptyStory := by
      simp [runWorkflow, hb1, hb2]
    have r2 : runWorkflow g2 s0 = finish (afterInit g2 s0) .abortedEmptyStory := by
      simp [runWorkflow, hb1', hb2']
    rw [r1, r2]
    exact ⟨e1.1, e1.2.1, rfl⟩
  have hb2' : ¬storyEmpty (afterInit g2 s0).state = true := by
    rw [← e1.2.1]; exact hb2
  by_cases hb3 : (afterLoop g1 s0).failed = true
  · have hb3' : (afterLoop g2 s0).failed = true := by rw [← e2.2.2]; exact hb3
    have r1 : runWorkflow g1 s0 = finish (afterLoop g1 s0) .genFailure := by
      simp [runWorkflow, hb1, hb2, hb3]
    have r2 : runWorkflow g2 s0 = finish (afterLoop g2 s0) .genFailure := by
      simp [runWorkflow, hb1', hb2', hb3']
    rw [r1, r2]
    exact ⟨e2.1, e2.2.1, rfl⟩
  have hb3' : ¬(afterLoop g2 s0).failed = true := by rw [← e2.2.2]; exact hb3
  by_cases hb4 : (afterPost g1 s0).failed = true
  · have hb4' : (afterPost g2 s0).failed = true := by rw [← e3.2.2]; exact hb4
    have r1 : runWorkflow g1 s0 = finish (afterPost g1 s0) .genFailure := by
      simp [runWorkflow, hb1, hb2, hb3, hb4]
    have r2 : runWorkflow g2 s0 = finish (afterPost g2 s0) .genFailure := by
      simp [runWorkflow, hb1', hb2', hb3', hb4']
    rw [r1, r2]
    exact ⟨e3.1, e3.2.1, rfl⟩
  have hb4' : ¬(afterPost g2 s0).failed = true := by rw [← e3.2.2]; exact hb4
  by_cases hb5 : toneNegative (afterPost g1 s0).state = true
  · have hb5' : toneNegative (afterPost g2 s0).state = true := by
      rw [← e3.2.1]; exact hb5
    by_cases hb6 : (stepStage g1 story_generator (afterPost g1 s0)).failed = true
    · have hb6' : (stepStage g2 story_generator (afterPost g2 s0)).failed = true := by
        rw [← e4.2.2]; exact hb6
      have r1 : runWorkflow g1 s0 =
          finish (stepStage g1 story_generator (afterPost g1 s0)) .genFailure := by
        simp [runWorkflow, hb1, hb2, hb3, hb4, hb5, hb6]
      have r2 : runWorkflow g2 s0 =
          finish (stepStage g2 story_generator (afterPost g2 s0)) .genFailure := by
        simp [runWorkflow, hb1', hb2', hb3', hb4', hb5', hb6']
      rw [r1, r2]
      exact ⟨e4.1, e4.2.1, rfl⟩
    · have hb6' : ¬(stepStage g2 story_generator (afterPost g2 s0)).failed = true := by
        rw [← e4.2.2]; exact hb6
      have r1 : runWorkflow g1 s0 =
          finish (stepStage g1 story_generator (afterPost g1 s0)) .completed := by
        simp [runWorkflow, hb1, hb2, hb3, hb4, hb5, hb6]
      have r2 : runWorkflow g2 s0 =
          finish (stepStage g2 story_generator (afterPost g2 s0)) .completed := by
        simp [runWorkflow, hb1', hb2', hb3', hb4', hb5', hb6']
      rw [r1, r2]
      exact ⟨e4.1, e4.2.1, rfl⟩
  · have hb5' : ¬toneNegative (afterPost g2 s0).state = true := by
      rw [← e3.2.1]; exact hb5
    have r1 : runWorkflow g1 s0 = finish (afterPost g1 s0) .completed := by
      simp [runWorkflow, hb1, hb2, hb3, hb4, hb5]
    have r2 : runWorkflow g2 s0 = finish (afterPost g2 s0) .completed := by
      simp [runWorkflow, hb1', hb2', hb3', hb4', hb5']
    rw [r1, r2]
    exact ⟨e3.1, e3.2.1, rfl⟩

/-- Witness for C8: the stub and its chatty variant emit different
event payloads yet drive identical control flow. -/
theorem control_independent_of_payloads_witness :
    ((runWorkflow (stubGen "neutral") []).trace =
      (runWorkflow stubGenChatty []).trace ∧
     (runWorkflow (stubGen "neutral") []).state =
      (runWorkflow stubGenChatty []).state ∧
     (runWorkflow (stubGen "neutral") []).outcome =
      (runWorkflow stubGenChatty []).outcome) ∧
    (runWorkflow (stubGen "neutral") []).events ≠
      (runWorkflow stubGenChatty []).events :=
  ⟨control_independent_of_payloads (stubGen "neutral") stubGenChatty []
    (fun _name _s => Or.inr ⟨_, _, rfl, rfl, rfl⟩),
   by decide⟩

/-- C9: when RE_GENERATE executes (and its call produces a final
output), the only state key written between entering BRANCH and
reaching DONE is `current_story`: every other key — `criticism`,
`grammar_suggestions`, `tone_check_result`, and anything else — is
unchanged from the post-processing state, so the final state still
carries a normalized-`"negative"` `tone_check_result` describing a
story that has been replaced. -/
theorem regeneration_frame (gen : Gen) (s0 : StateMap)
    (hinit : (afterInit gen s0).failed = false)
    (hguard : storyEmpty (afterInit gen s0).state = false)
    (hpost : (afterPost gen s0).failed = false)
    (htone : toneNegative (afterPost gen s0).state = true)
    (o : GenOutput) (v : String)
    (hregen : gen "StoryGenerator" (afterPost gen s0).state = some o)
    (ho : o.output = some v) :
    (∀ k, k ≠ "current_story" →
       (runWorkflow gen s0).state.get k = (afterPost gen s0).state.get k) ∧
    (runWorkflow gen s0).state.get "current_story" = some v ∧
    toneNegative (runWorkflow gen s0).state = true ∧
    (runWorkflow gen s0).outcome = .completed := by
  have hloop : (afterLoop gen s0).failed = false :=
    failed_of_stepStages gen postStages _ hpost
  have h4ok : (stepStage gen story_generator (afterPost gen s0)).failed = false :=
    stepStage_not_failed gen story_generator _ o hpost hregen
  have hrun : runWorkflow gen s0 =
      finish (stepStage gen story_generator (afterPost gen s0)) .completed := by
    simp [runWorkflow, hinit, hguard, hloop, hpost, htone, h4ok]
  have hstate : (stepStage gen story_generator (afterPost gen s0)).state =
      (afterPost gen s0).state.set "current_story" v :=
    stepStage_state_write gen story_generator _ o v hpost hregen ho
  have hframe : ∀ k, k ≠ "current_story" →
      (runWorkflow gen s0).state.get k = (afterPost gen s0).state.get k := by
    intro k hk
    rw [hrun]
    show (stepStage gen story_generator (afterPost gen s0)).state.get k = _
    rw [hstate]
    exact StateMap.get_set_ne _ _ _ _ hk
  refine ⟨hframe, ?_, ?_, ?_⟩
  · rw [hrun]
    show (stepStage gen story_generator (afterPost gen s0)).state.get
      "current_story" = some v
    rw [hstate]
    exact StateMap.get_set_self _ _ _
  · have hkey : (runWorkflow gen s0).state.get "tone_check_result" =
        (afterPost gen s0).state.get "tone_check_result" :=
      hframe "tone_check_result" (by decide)
    unfold toneNegative at htone ⊢
    rw [hkey]
    exact htone
  · rw [hrun]
    rfl

/-- Witness for C9 at the negative-tone stub. -/
theorem regeneration_frame_witness :
    (runWorkflow (stubGen "negative") []).state.get "criticism" =
      (afterPost (stubGen "negative") []).state.get "criticism" ∧
    (runWorkflow (stubGen "negative") []).state.get "tone_check_result" =
      (afterPost (stubGen "negative") []).state.get "tone_check_result" ∧
    (runWorkflow (stubGen "negative") []).state.get "current_story" =
      some "Once upon a time" ∧
    toneNegative (runWorkflow (stubGen "negative") []).state = true :=
  have h := regeneration_frame (stubGen "negative") [] (by decide) (by decide)
    (by decide) (by decide) (stubOut "negative" "StoryGenerator")
    "Once upon a time" rfl rfl
  ⟨h.1 "criticism" (by decide), h.1 "tone_check_result" (by decide),
    h.2.1, h.2.2.1⟩

/-- C10: the GUARD check inspects only the state value of
`current_story`, not its provenance: when the caller pre-seeds a
non-empty `current_story` and the initial stage completes without
writing anything, the state after INIT is untouched, the guard passes,
the seeded (stale) story is what enters the loop, and the full
revision/post-processing pipeline runs on it. -/
theorem guard_accepts_seeded_story (gen : Gen) (s0 : StateMap) (v : String)
    (hseed : s0.get "current_story" = some v) (hv : v ≠ "")
    (o : GenOutput)
    (hg : gen "StoryGenerator" s0 = some o) (ho : o.output = none)
    (hpost : (afterPost gen s0).failed = false) :
    (afterInit gen s0).state = s0 ∧
    storyEmpty (afterInit gen s0).state = false ∧
    (afterInit gen s0).state.get "current_story" = some v ∧
    (runWorkflow gen s0).trace.take 7 =
      ["StoryGenerator", "Critic", "Reviser", "Critic", "Reviser",
       "GrammarCheck", "ToneCheck"] := by
  have hstate : (afterInit gen s0).state = s0 := by
    show (stepStage gen story_generator (initAcc s0)).state = s0
    simp [stepStage, initAcc, story_generator, hg, ho]
  have hinit : (afterInit gen s0).failed = false :=
    stepStage_not_failed gen story_generator (initAcc s0) o rfl hg
  have hguard : storyEmpty (afterInit gen s0).state = false := by
    rw [hstate]
    unfold storyEmpty
    rw [hseed]
    simp [hv]
  refine ⟨hstate, hguard, by rw [hstate]; exact hseed, ?_⟩
  have hfull := afterPost_trace gen s0 hpost
  have hloop : (afterLoop gen s0).failed = false :=
    failed_of_stepStages gen postStages _ hpost
  cases htone : toneNegative (afterPost gen s0).state with
  | false =>
      have hrun : runWorkflow gen s0 = finish (afterPost gen s0) .completed := by
        simp [runWorkflow, hinit, hguard, hloop, hpost, htone]
      rw [hrun]
      show (afterPost gen s0).trace.take 7 = _
      rw [hfull]
      rfl
  | true =>
      have htr := stepStage_trace_ok gen story_generator (afterPost gen s0) hpost
      cases h4 : (stepStage gen story_generator (afterPost gen s0)).failed with
      | false =>
          have hrun : runWorkflow gen s0 =
              finish (stepStage gen story_generator (afterPost gen s0)) .completed := by
            simp [runWorkflow, hinit, hguard, hloop, hpost, htone, h4]
          rw [hrun]
          show (stepStage gen story_generator (afterPost gen s0)).trace.take 7 = _
          rw [htr, hfull]
          rfl
      | true =>
          have hrun : runWorkflow gen s0 =
              finish (stepStage gen story_generator (afterPost gen s0)) .genFailure := by
            simp [runWorkflow, hinit, hguard, hloop, hpost, htone, h4]
          rw [hrun]
          show (stepStage gen story_generator (afterPost gen s0)).trace.take 7 = _
          rw [htr, hfull]
          rfl

/-- Witness for C10: a pre-seeded story with a no-write generator. -/
theorem guard_accepts_seeded_story_witness :
    storyEmpty
      (afterInit noWriteStoryGen [("current_story", "A seeded stale story")]).state
      = false ∧
    (afterInit noWriteStoryGen [("current_story", "A seeded stale story")]).state
      = [("current_story", "A seeded stale story")] ∧
    (runWorkflow noWriteStoryGen
      [("current_story", "A seeded stale story")]).trace.take 7 =
      ["StoryGenerator", "Critic", "Reviser", "Critic", "Reviser",
       "GrammarCheck", "ToneCheck"] :=
  have h := guard_accepts_seeded_story noWriteStoryGen
    [("current_story", "A seeded stale story")] "A seeded stale story"
    rfl (by decide) ⟨["story-ev"], none⟩ rfl rfl (by decide)
  ⟨h.2.1, h.1, h.2.2.2⟩

end StoryFlow
